import Mathlib

/-!
Verification development for the Multi-Audio Track/Channel Importer
(`multi_audio_importer.py`), a Blender VSE add-on that probes a media file
for audio streams, lets the user pick one stream and a subset of its
channels, and imports the channels as separate panned mono strips (split
mode) or as a single downmixed strip.

The shallow embedding below translates the pure decision logic of the
add-on: the channel-layout registry (`CHANNEL_LAYOUT_MAP`), the
channel-name-to-pan-key table (`CHANNEL_NAME_TO_PAN_KEY`), the pan tables
and `get_pan_value`, the stream-selection callback
(`MultiAudioProperties.stream_selected`), the scan operator
(`AUDIO_OT_ScanTracks.execute`, with the ffprobe subprocess abstracted as
an oracle `FfprobeResult`), and the import operator
(`AUDIO_OT_ImportMedia.execute`, with the ffmpeg/ffprobe subprocess
outcomes and the Blender sequence-editor placement API abstracted as an
oracle `ExternalWorld`).  Pan coefficients are modelled as exact rationals
because every pan constant in the source is a short decimal literal.
-/

/-- One entry of the probed-stream catalog
(`AudioStreamItem` property group in the source). -/
structure AudioStreamItem where
  index : Int
  relative_audio_index : Nat
  codec_name : String
  sample_rate : Nat
  channels : Nat
  channel_layout : String
  language : String
  title : String
deriving DecidableEq, Repr, Inhabited

/-- One entry of the per-stream channel-selection list
(`AudioChannelItem` property group in the source). -/
structure AudioChannelItem where
  name : String
  index : Nat
  selected : Bool
deriving DecidableEq, Repr, Inhabited

/-- Value type of `CHANNEL_LAYOUT_MAP`: the ffmpeg filter layout string and
the ordered standard channel names of the layout. -/
structure LayoutInfo where
  ffmpeg_layout : String
  channels : List String
deriving DecidableEq, Repr

/-- The static layout registry of the source (`CHANNEL_LAYOUT_MAP`),
keyed by the channel-layout identifier reported by ffprobe. -/
def CHANNEL_LAYOUT_MAP : List (String × LayoutInfo) := [
  ("mono", ⟨"mono", ["FC"]⟩),
  ("stereo", ⟨"stereo", ["FL", "FR"]⟩),
  ("2.1", ⟨"2.1", ["FL", "FR", "LFE"]⟩),
  ("3.0", ⟨"3.0", ["FL", "FR", "FC"]⟩),
  ("3.0(back)", ⟨"3.0(back)", ["FL", "FR", "BC"]⟩),
  ("3.1", ⟨"3.1", ["FL", "FR", "FC", "LFE"]⟩),
  ("4.0", ⟨"quad", ["FL", "FR", "BL", "BR"]⟩),
  ("quad", ⟨"quad", ["FL", "FR", "BL", "BR"]⟩),
  ("quad(side)", ⟨"quad(side)", ["FL", "FR", "SL", "SR"]⟩),
  ("4.1", ⟨"4.1", ["FL", "FR", "FC", "LFE", "BC"]⟩),
  ("5.0", ⟨"5.0(side)", ["FL", "FR", "FC", "SL", "SR"]⟩),
  ("5.0(side)", ⟨"5.0(side)", ["FL", "FR", "FC", "SL", "SR"]⟩),
  ("5.1", ⟨"5.1(side)", ["FL", "FR", "FC", "LFE", "SL", "SR"]⟩),
  ("5.1(side)", ⟨"5.1(side)", ["FL", "FR", "FC", "LFE", "SL", "SR"]⟩),
  ("6.0", ⟨"6.0(front)", ["FL", "FR", "FC", "BC", "SL", "SR"]⟩),
  ("6.0(front)", ⟨"6.0(front)", ["FL", "FR", "FC", "BC", "SL", "SR"]⟩),
  ("6.1", ⟨"6.1(back)", ["FL", "FR", "FC", "LFE", "BC", "SL", "SR"]⟩),
  ("6.1(back)", ⟨"6.1(back)", ["FL", "FR", "FC", "LFE", "BC", "SL", "SR"]⟩),
  ("6.1(front)", ⟨"6.1(front)", ["FL", "FR", "FC", "LFE", "SL", "SR"]⟩),
  ("7.0", ⟨"7.0(front)", ["FL", "FR", "FC", "BL", "BR", "SL", "SR"]⟩),
  ("7.0(front)", ⟨"7.0(front)", ["FL", "FR", "FC", "BL", "BR", "SL", "SR"]⟩),
  ("7.1", ⟨"7.1", ["FL", "FR", "FC", "LFE", "BL", "BR", "SL", "SR"]⟩),
  ("7.1(wide)", ⟨"7.1(wide)", ["FL", "FR", "FC", "LFE", "BL", "BR", "FLC", "FRC"]⟩),
  ("7.1(wide-side)", ⟨"7.1(wide-side)", ["FL", "FR", "FC", "LFE", "SL", "SR", "FLC", "FRC"]⟩),
  ("octagonal", ⟨"octagonal", ["FL", "FR", "FC", "BL", "BR", "SL", "SR", "BC"]⟩)]

/-- The source's `CHANNEL_NAME_TO_PAN_KEY` table: ffmpeg standard channel
names (plus the generic `Ch1`..`Ch8` fallbacks) to pan preset keys. -/
def CHANNEL_NAME_TO_PAN_KEY : List (String × String) := [
  ("FL", "FRONTLEFT"), ("FR", "FRONTRIGHT"), ("FC", "FRONTCENTER"), ("LFE", "FRONTCENTER"),
  ("BL", "REARLEFT"), ("BR", "REARRIGHT"), ("FLC", "FRONTLEFT"), ("FRC", "FRONTRIGHT"),
  ("BC", "FRONTCENTER"), ("SL", "SIDELEFT"), ("SR", "SIDERIGHT"), ("TC", "FRONTCENTER"),
  ("TFL", "FRONTLEFT"), ("TFC", "FRONTCENTER"), ("TFR", "FRONTRIGHT"), ("TBL", "REARLEFT"),
  ("TBC", "FRONTCENTER"), ("TBR", "REARRIGHT"),
  ("Ch1", "FRONTLEFT"), ("Ch2", "FRONTRIGHT"), ("Ch3", "FRONTCENTER"), ("Ch4", "REARLEFT"),
  ("Ch5", "REARRIGHT"), ("Ch6", "SIDELEFT"), ("Ch7", "SIDERIGHT"), ("Ch8", "FRONTCENTER")]

/-- Row of `AUDIO_OT_ImportMedia.pan_values` for scene setting `STEREO`. -/
def STEREO_TABLE : List (String × ℚ) :=
  [("FRONTLEFT", -1.0), ("FRONTCENTER", 0.0), ("FRONTRIGHT", 1.0),
   ("SIDELEFT", -1.0), ("SIDERIGHT", 1.0), ("REARLEFT", -1.0), ("REARRIGHT", 1.0)]

/-- Row of `AUDIO_OT_ImportMedia.pan_values` for scene setting `SURROUND4`. -/
def SURROUND4_TABLE : List (String × ℚ) :=
  [("FRONTLEFT", -0.5), ("FRONTCENTER", 0.0), ("FRONTRIGHT", 0.5),
   ("SIDELEFT", -1.5), ("SIDERIGHT", 1.5), ("REARLEFT", -1.5), ("REARRIGHT", 1.5)]

/-- Row of `AUDIO_OT_ImportMedia.pan_values` for scene setting `SURROUND51`. -/
def SURROUND51_TABLE : List (String × ℚ) :=
  [("FRONTLEFT", -0.33335), ("FRONTCENTER", 0.0), ("FRONTRIGHT", 0.33335),
   ("SIDELEFT", -1.2225), ("SIDERIGHT", 1.2225), ("REARLEFT", -1.2225), ("REARRIGHT", 1.2225)]

/-- Row of `AUDIO_OT_ImportMedia.pan_values` for scene setting `SURROUND71`. -/
def SURROUND71_TABLE : List (String × ℚ) :=
  [("FRONTLEFT", -0.33335), ("FRONTCENTER", 0.0), ("FRONTRIGHT", 0.33335),
   ("SIDELEFT", -1.2225), ("SIDERIGHT", 1.2225), ("REARLEFT", -1.66667), ("REARRIGHT", 1.66667)]

/-- Row of `AUDIO_OT_ImportMedia.pan_values` for scene setting `MONO`. -/
def MONO_TABLE : List (String × ℚ) :=
  [("FRONTLEFT", 0.0), ("FRONTCENTER", 0.0), ("FRONTRIGHT", 0.0),
   ("SIDELEFT", 0.0), ("SIDERIGHT", 0.0), ("REARLEFT", 0.0), ("REARRIGHT", 0.0)]

/-- The full `pan_values` dictionary of `AUDIO_OT_ImportMedia`, keyed by the
scene audio-channels setting name. -/
def pan_values : List (String × List (String × ℚ)) :=
  [("STEREO", STEREO_TABLE), ("SURROUND4", SURROUND4_TABLE), ("SURROUND51", SURROUND51_TABLE),
   ("SURROUND71", SURROUND71_TABLE), ("MONO", MONO_TABLE)]

/-- `AUDIO_OT_ImportMedia.get_pan_value`: look up the pan table for the
scene setting (defaulting to the `STEREO` row when the setting is not a key
of `pan_values`), then look up the pan key in that row (defaulting to the
center value 0.0 when the key is absent). -/
def get_pan_value (pan_key scene_channels_setting : String) : ℚ :=
  let channel_map := (pan_values.lookup scene_channels_setting).getD STEREO_TABLE
  (channel_map.lookup pan_key).getD 0

/-- The recognized scene audio-channel settings: exactly the keys of
`pan_values`. -/
def RECOGNIZED_CONFIGS : List String :=
  ["STEREO", "SURROUND4", "SURROUND51", "SURROUND71", "MONO"]

/-- The pan preset keys: exactly the keys of every row of `pan_values`. -/
def PAN_KEYS : List String :=
  ["FRONTLEFT", "FRONTCENTER", "FRONTRIGHT", "SIDELEFT", "SIDERIGHT", "REARLEFT", "REARRIGHT"]

/-- The generic channel names `Ch1`..`ChN` synthesized by the source
(`[f"Ch{i+1}" for i in range(n_ch)]`). -/
def genericChannelNames (n : Nat) : List String :=
  (List.range n).map (fun i => "Ch" ++ toString (i + 1))

/-- The channel-name resolution inside
`MultiAudioProperties.stream_selected`: the registry entry when the layout
is mapped and its length matches the reported channel count, otherwise the
generic names. -/
def resolveChannelNames (layout : String) (n_ch : Nat) : List String :=
  match CHANNEL_LAYOUT_MAP.lookup layout with
  | some l_info =>
    if l_info.channels.length = n_ch then l_info.channels else genericChannelNames n_ch
  | none => genericChannelNames n_ch

/-- `MultiAudioProperties.stream_selected` (the `stream_index` update
callback): clear the channel list, and when the index is valid repopulate
it from the selected stream's layout and channel count, every entry with
`selected = True`.  The previous channel list is passed in to mirror the
mutation but is discarded by the initial `self.channels.clear()`. -/
def stream_selected (old_channels : List AudioChannelItem) (stream_index : Int)
    (streams : List AudioStreamItem) : List AudioChannelItem :=
  let cleared : List AudioChannelItem := []
  if 0 ≤ stream_index ∧ stream_index < (streams.length : Int) then
    let stream := streams.getD stream_index.toNat default
    let chnames := resolveChannelNames stream.channel_layout stream.channels
    cleared ++ (List.range stream.channels).map (fun i =>
      { name := chnames.getD i "", index := i, selected := true })
  else cleared

/-- Outcome type of a Blender operator (`{'FINISHED'}` / `{'CANCELLED'}`). -/
inductive OpResult
  | finished
  | cancelled
deriving DecidableEq, Repr

/-- The stream/channel selection state held in `MultiAudioProperties`:
the probed stream list, the selected stream index and the channel list. -/
structure CatalogState where
  streams : List AudioStreamItem
  stream_index : Int
  channels : List AudioChannelItem
deriving DecidableEq, Repr, Inhabited

/-- Assigning `props.stream_index` fires the `stream_selected` update
callback, which regenerates the channel list. -/
def setStreamIndex (s : CatalogState) (i : Int) : CatalogState :=
  { s with stream_index := i, channels := stream_selected s.channels i s.streams }

/-- One JSON stream object as parsed from ffprobe output inside
`get_audio_streams_info`; every field is optional because the source reads
each one with `.get` and a default. -/
structure RawStream where
  index : Option Int
  codec_name : Option String
  sample_rate : Option Nat
  channels : Option Nat
  channel_layout : Option String
  language : Option String
  title : Option String
deriving DecidableEq, Repr, Inhabited

/-- Oracle for one ffprobe invocation inside `get_audio_streams_info`:
the process cannot be invoked or exits non-zero (`invokeError`, the
`CalledProcessError`/generic exception paths), its stdout is blank
(`emptyOutput`), its stdout is not valid JSON (`malformedJson`), or it
parses to a list of stream objects (`parsed`). -/
inductive FfprobeResult
  | invokeError
  | emptyOutput
  | malformedJson
  | parsed (streams : List RawStream)
deriving DecidableEq, Repr

/-- `get_audio_streams_info`: returns `none` on any probe failure (ffprobe
missing, process error, malformed JSON), the empty list when the file has
no audio streams (blank stdout, or no parsed stream carries an index), and
otherwise the index-bearing streams paired with their 0-based relative
audio index. -/
def get_audio_streams_info (ffprobe_found : Bool) (r : FfprobeResult) :
    Option (List (Nat × RawStream)) :=
  if ffprobe_found = false then none
  else
    match r with
    | .invokeError => none
    | .malformedJson => none
    | .emptyOutput => some []
    | .parsed streams => some (streams.filter (fun s => s.index.isSome)).enum

/-- Conversion of one probed stream object into a catalog entry, with the
defaults used by `AUDIO_OT_ScanTracks.execute` (`index = -1` when the
index cannot be parsed, `sample_rate = 0`, `channels = 0`, empty
strings). -/
def rawToItem (p : Nat × RawStream) : AudioStreamItem :=
  { index := p.2.index.getD (-1),
    relative_audio_index := p.1,
    codec_name := p.2.codec_name.getD "N/A",
    sample_rate := p.2.sample_rate.getD 0,
    channels := p.2.channels.getD 0,
    channel_layout := p.2.channel_layout.getD "",
    language := p.2.language.getD "",
    title := p.2.title.getD "" }

/-- `AUDIO_OT_ScanTracks.execute`: clear the catalog (streams, selected
index, channels), then fail on an invalid path, a missing ffprobe or a
probe failure; report success with an empty catalog when no audio stream
was found; otherwise populate the stream list and select stream 0, which
fires `stream_selected` and populates the channel list. -/
def AUDIO_OT_ScanTracks_execute (s : CatalogState) (media_is_file ffprobe_found : Bool)
    (r : FfprobeResult) : OpResult × CatalogState :=
  let s0 := setStreamIndex { s with streams := [] } (-1)
  let s1 : CatalogState := { s0 with channels := [] }
  if media_is_file = false then (.cancelled, s1)
  else if ffprobe_found = false then (.cancelled, s1)
  else
    match get_audio_streams_info ffprobe_found r with
    | none => (.cancelled, s1)
    | some audio_streams_data =>
      if audio_streams_data = [] then (.finished, s1)
      else
        let s2 : CatalogState := { s1 with streams := audio_streams_data.map rawToItem }
        if 0 < s2.streams.length then (.finished, setStreamIndex s2 0)
        else (.finished, setStreamIndex s2 (-1))

/-- Outcome of one ffmpeg invocation in `AUDIO_OT_ImportMedia.execute`:
normal completion, `subprocess.TimeoutExpired`, `CalledProcessError`
(non-zero exit), or any other exception. -/
inductive ExtractOutcome
  | ok
  | timeout
  | procError
  | exn
deriving DecidableEq, Repr

/-- Outcome of `sequences.new_movie` for the video strip: a strip, `None`
(the channel offset is still advanced), or an exception (it is not). -/
inductive VideoAddResult
  | ok
  | returnedNone
  | exn
deriving DecidableEq, Repr

/-- External processes spawned by `AUDIO_OT_ImportMedia.execute`: the
ffprobe video-presence check inside `has_video_stream`, the single
channel-split ffmpeg run, and the single downmix/pass-through ffmpeg
run. -/
inductive Proc
  | videoProbe
  | ffmpegSplit
  | ffmpegDownmix
deriving DecidableEq, Repr

/-- A temporary file created with `tempfile.mkstemp`, tagged with the
`pack_audio` flag recorded in `temp_files_this_op`. -/
structure TempFile where
  path : String
  pack : Bool
deriving DecidableEq, Repr

/-- An audio strip placed on the timeline via `sequences.new_sound`, with
the pan applied to it. -/
structure PlacedStrip where
  name : String
  vse_channel : Nat
  pan : ℚ
deriving DecidableEq, Repr, Inhabited

/-- Observable trace of one run of `AUDIO_OT_ImportMedia.execute`: the
operator result, the first fatal error report (if any), the external
processes spawned, the temp files created and later deleted, whether a
video strip was placed, and the audio strips placed with their pans. -/
structure ImportTrace where
  result : OpResult
  error : Option String
  spawned : List Proc
  temp_created : List TempFile
  temp_deleted : List String
  video_placed : Bool
  audio_strips : List PlacedStrip
deriving Repr

/-- The inputs `AUDIO_OT_ImportMedia.execute` reads from the scene and the
`MultiAudioProperties` state, plus ambient facts (file exists, tool
binaries found, pre-existing VSE strip channels). -/
structure ImportConfig where
  make_mono : Bool
  pack_audio : Bool
  pan_preset : String
  stream_index : Int
  streams : List AudioStreamItem
  channels : List AudioChannelItem
  scene_audio_channels : String
  media_is_file : Bool
  ffmpeg_found : Bool
  ffprobe_found : Bool
  existing_vse_channels : List Nat
deriving Repr

/-- Oracle for the external collaborators of one import run: sequence
editor creation, the video probe answer, the video strip placement
outcome, the single ffmpeg extraction outcome, and per-placement success
of `sequences.new_sound` (indexed by position in the selected-channel
list; the downmix placement uses position 0). -/
structure ExternalWorld where
  vse_create_ok : Bool
  has_video : Bool
  video_add : VideoAddResult
  extract : ExtractOutcome
  sound_add_ok : Nat → Bool

/-- The layout lookup with basic guess of the split branch of
`AUDIO_OT_ImportMedia.execute`: the registry entry when the reported
layout is a key, otherwise the `stereo` entry for a 2-channel stream or a
synthesized generic layout for more than 2 channels, and `none` (leading
to the cannot-map-layout error) otherwise. -/
def planSplitLayout (layout : String) (n_ch : Nat) : Option LayoutInfo :=
  match CHANNEL_LAYOUT_MAP.lookup layout with
  | some l_info => some l_info
  | none =>
    if n_ch = 2 then CHANNEL_LAYOUT_MAP.lookup "stereo"
    else if 2 < n_ch then
      some { ffmpeg_layout := toString n_ch ++ ".0", channels := genericChannelNames n_ch }
    else none

/-- Whether the video strip ends up placed: only when the file has a
video stream and `sequences.new_movie` returned a strip. -/
def videoPlacedFlag (has_video : Bool) (va : VideoAddResult) : Bool :=
  if has_video then
    match va with
    | .ok => true
    | .returnedNone => false
    | .exn => false
  else false

/-- The channel offset after the video import step: `new_movie` returning
a strip or `None` both advance the offset; an exception does not. -/
def videoChannelOffset (has_video : Bool) (va : VideoAddResult) : Nat :=
  if has_video then
    match va with
    | .ok => 1
    | .returnedNone => 1
    | .exn => 0
  else 0

/-- The temp files allocated by the split branch: one `.wav` per selected
channel, recorded in `temp_files_this_op` with the `pack_audio` flag. -/
def splitTempFiles (stream_idx : Int) (selected : List AudioChannelItem)
    (pack : Bool) : List TempFile :=
  selected.map (fun ch =>
    { path := "bimport_s" ++ toString stream_idx ++ "_ch_" ++ ch.name ++ ".wav", pack := pack })

/-- The per-channel placement loop of the split branch after a successful
extraction: one `new_sound` attempt per selected channel in order, each
placed strip panned via `CHANNEL_NAME_TO_PAN_KEY` (default key
`FRONTCENTER`) and `get_pan_value`; a failed placement is skipped with
`continue`, never aborting the loop. -/
def splitPlacement (sound_add_ok : Nat → Bool) (stream_idx : Int)
    (selected : List AudioChannelItem) (audio_base : Nat) (scene : String) :
    List PlacedStrip :=
  selected.enum.filterMap (fun p =>
    if sound_add_ok p.1 then
      some { name := ("Str_" ++ toString stream_idx ++ "_" ++ p.2.name).take 63,
             vse_channel := audio_base + p.1,
             pan := get_pan_value
               ((CHANNEL_NAME_TO_PAN_KEY.lookup p.2.name).getD "FRONTCENTER") scene }
    else none)

/-- The strip name of the downmix / original-mono branch: language (or
`Track`) and title with spaces underscored, the absolute stream index, and
a `_Mono` suffix when downmixing. -/
def downmixStripName (make_mono : Bool) (stream : AudioStreamItem) : String :=
  let lang := if stream.language ≠ "" then stream.language.replace " " "_" else "Track"
  let title := if stream.title ≠ "" then "_" ++ stream.title.replace " " "_" else ""
  let base_name := lang ++ title ++ "_" ++ toString stream.index
  if make_mono then base_name ++ "_Mono" else base_name

/-- The single placement of the downmix / original-mono branch: panned by
the caller-chosen preset when downmixing, by `FRONTCENTER` for an
already-mono source; nothing is placed when `new_sound` fails. -/
def downmixPlacement (sound_add_ok : Nat → Bool) (make_mono : Bool) (pan_preset : String)
    (stream : AudioStreamItem) (strip_channel : Nat) (scene : String) : List PlacedStrip :=
  let pan_key_to_use := if make_mono then pan_preset else "FRONTCENTER"
  if sound_add_ok 0 then
    [{ name := (downmixStripName make_mono stream).take 63, vse_channel := strip_channel,
       pan := get_pan_value pan_key_to_use scene }]
  else []

/-- An early `return {'CANCELLED'}` of `AUDIO_OT_ImportMedia.execute`:
the `finally` cleanup block at the end of the function is not reached, so
nothing is deleted. -/
def mkCancel (msg : String) (spawned : List Proc) (temps : List TempFile)
    (vid : Bool) (strips : List PlacedStrip) : ImportTrace :=
  { result := .cancelled, error := some msg, spawned := spawned, temp_created := temps,
    temp_deleted := [], video_placed := vid, audio_strips := strips }

/-- The final report stage of `AUDIO_OT_ImportMedia.execute` with its
`finally` block: every temp file recorded with `pack = True` is deleted
(`files_to_del = [f["path"] for f in temp_files_this_op if f["pack"]]`),
then `{'FINISHED'}` is returned. -/
def mkFinish (spawned : List Proc) (temps : List TempFile) (vid : Bool)
    (strips : List PlacedStrip) : ImportTrace :=
  { result := .finished, error := none, spawned := spawned, temp_created := temps,
    temp_deleted := (temps.filter (fun t => t.pack)).map (fun t => t.path),
    video_placed := vid, audio_strips := strips }

/-- `AUDIO_OT_ImportMedia.execute`, following the source's control flow:
validity checks, sequence-editor creation, `has_video_stream` probe and
optional video import, then either the channel-split branch (one
`filter_complex` ffmpeg run for all selected channels, then one
`new_sound` placement per selected channel with the auto pan from
`CHANNEL_NAME_TO_PAN_KEY` and `get_pan_value`), or the downmix /
original-mono branch (one ffmpeg run, one placement panned by the preset
or center), then the final report stage whose `finally` block deletes the
packed temp files.  Every ffmpeg failure path returns `{'CANCELLED'}`
before that block. -/
def AUDIO_OT_ImportMedia_execute (cfg : ImportConfig) (w : ExternalWorld) : ImportTrace :=
  if cfg.media_is_file = false then mkCancel "Media file invalid." [] [] false []
  else if cfg.ffmpeg_found = false then mkCancel "ffmpeg not found." [] [] false []
  else if ¬ (0 ≤ cfg.stream_index ∧ cfg.stream_index < (cfg.streams.length : Int)) then
    mkCancel "No valid stream selected." [] [] false []
  else
    let stream := cfg.streams.getD cfg.stream_index.toNat default
    if w.vse_create_ok = false then mkCancel "VSE Create fail." [] [] false []
    else
      let start_channel := cfg.existing_vse_channels.foldr max 0 + 1
      let spawned0 := if cfg.ffprobe_found then [Proc.videoProbe] else []
      let has_video := cfg.ffprobe_found && w.has_video
      let video_placed := videoPlacedFlag has_video w.video_add
      let offset0 := videoChannelOffset has_video w.video_add
      if cfg.make_mono = false ∧ 1 < stream.channels then
        let selected := cfg.channels.filter (fun c => c.selected)
        if selected = [] then mkCancel "No channels selected." spawned0 [] video_placed []
        else
          match planSplitLayout stream.channel_layout stream.channels with
          | none => mkCancel "Cannot map layout." spawned0 [] video_placed []
          | some l_info =>
            if l_info.channels.length ≠ stream.channels then
              mkCancel "Layout map mismatch." spawned0 [] video_placed []
            else
              let temps := splitTempFiles stream.index selected cfg.pack_audio
              let spawned1 := spawned0 ++ [Proc.ffmpegSplit]
              match w.extract with
              | .timeout =>
                mkCancel "FFmpeg split timed out." spawned1 temps video_placed []
              | .procError =>
                mkCancel "FFmpeg split failed." spawned1 temps video_placed []
              | .exn =>
                mkCancel "Unexpected split error." spawned1 temps video_placed []
              | .ok =>
                mkFinish spawned1 temps video_placed
                  (splitPlacement w.sound_add_ok stream.index selected
                    (start_channel + offset0) cfg.scene_audio_channels)
      else if cfg.make_mono = true ∨ stream.channels = 1 then
        let temps := [({ path := "bimport_s" ++ toString stream.index ++ "_mix.wav",
                         pack := cfg.pack_audio } : TempFile)]
        let spawned1 := spawned0 ++ [Proc.ffmpegDownmix]
        match w.extract with
        | .timeout => mkCancel "FFmpeg timed out." spawned1 temps video_placed []
        | .procError => mkCancel "FFmpeg failed." spawned1 temps video_placed []
        | .exn => mkCancel "Unexpected strip error." spawned1 temps video_placed []
        | .ok =>
          mkFinish spawned1 temps video_placed
            (downmixPlacement w.sound_add_ok cfg.make_mono cfg.pan_preset stream
              (start_channel + offset0) cfg.scene_audio_channels)
      else
        mkFinish spawned0 [] video_placed []

/-- The cleanup contract of the final stage: the deleted temp files are
exactly the created temp files marked for packing. -/
def cleanupInvariant (t : ImportTrace) : Prop :=
  t.temp_deleted = (t.temp_created.filter (fun x => x.pack)).map (fun x => x.path)

/-- Fixture: a 2-channel stream reporting layout `stereo`. -/
def streamStereo : AudioStreamItem := ⟨1, 0, "aac", 48000, 2, "stereo", "", ""⟩

/-- Fixture: the Scenario A stream, 6 channels with layout `5.1(side)`. -/
def stream51side : AudioStreamItem := ⟨1, 0, "ac3", 48000, 6, "5.1(side)", "", ""⟩

/-- Fixture: a stream whose reported layout is a known registry key
(`stereo`) but whose reported channel count (3) disagrees with the
registry entry length (2). -/
def streamMismatch : AudioStreamItem := ⟨1, 0, "aac", 48000, 3, "stereo", "", ""⟩

/-- Fixture: a 3-channel stream with an unknown layout identifier. -/
def streamUnknownLayout : AudioStreamItem := ⟨1, 0, "aac", 48000, 3, "weird", "", ""⟩

/-- Fixture: an import configuration for one stream with the given channel
list, downmix flag and pack flag, under scene audio setting `SURROUND51`,
with the media file present and both tools found. -/
def baseCfg (s : AudioStreamItem) (chs : List AudioChannelItem) (mono pack : Bool) :
    ImportConfig :=
  { make_mono := mono, pack_audio := pack, pan_preset := "FRONTCENTER", stream_index := 0,
    streams := [s], channels := chs, scene_audio_channels := "SURROUND51",
    media_is_file := true, ffmpeg_found := true, ffprobe_found := true,
    existing_vse_channels := [] }

/-- Fixture: all collaborators succeed; the file has no video stream. -/
def okWorld : ExternalWorld := ⟨true, false, .exn, .ok, fun _ => true⟩

/-- Fixture: the single ffmpeg extraction run times out; everything else
succeeds. -/
def timeoutWorld : ExternalWorld := ⟨true, false, .exn, .timeout, fun _ => true⟩

/-- Fixture: the file has a video stream and the video strip import
succeeds; the ffmpeg extraction would succeed too. -/
def videoWorld : ExternalWorld := ⟨true, true, .ok, .ok, fun _ => true⟩

theorem genericChannelNames_length (n : Nat) : (genericChannelNames n).length = n := by
  simp [genericChannelNames]

theorem resolveChannelNames_length (layout : String) (n : Nat) :
    (resolveChannelNames layout n).length = n := by
  unfold resolveChannelNames
  cases CHANNEL_LAYOUT_MAP.lookup layout with
  | none => exact genericChannelNames_length n
  | some l_info =>
    dsimp only
    by_cases hl : l_info.channels.length = n
    · rw [if_pos hl]; exact hl
    · rw [if_neg hl]; exact genericChannelNames_length n

theorem stream_selected_old_irrel (o1 o2 : List AudioChannelItem) (i : Int)
    (ss : List AudioStreamItem) :
    stream_selected o1 i ss = stream_selected o2 i ss := rfl

theorem stream_selected_all_included (o : List AudioChannelItem) (i : Int)
    (ss : List AudioStreamItem) :
    ∀ c ∈ stream_selected o i ss, c.selected = true := by
  intro c hc
  unfold stream_selected at hc
  split at hc
  · simp only [List.nil_append, List.mem_map] at hc
    obtain ⟨j, _, rfl⟩ := hc
    rfl
  · simp at hc

theorem stream_selected_length (o : List AudioChannelItem) (i : Int)
    (ss : List AudioStreamItem) (h : 0 ≤ i ∧ i < (ss.length : Int)) :
    (stream_selected o i ss).length = (ss.getD i.toNat default).channels := by
  unfold stream_selected
  rw [if_pos h]
  simp

theorem lookup_getD_zero_or_mem (t : List (String × ℚ)) (key : String) :
    (t.lookup key).getD 0 = 0 ∨ (t.lookup key).getD 0 ∈ t.map Prod.snd := by
  induction t with
  | nil => left; rfl
  | cons p ps ih =>
    obtain ⟨k, v⟩ := p
    by_cases h : (key == k) = true
    · right
      simp [List.lookup, h]
    · have h' : (key == k) = false := by simpa using h
      simp only [List.lookup, h']
      rcases ih with h0 | hmem
      · left; exact h0
      · right
        simp only [List.map_cons, List.mem_cons]
        right
        exact hmem

theorem pan_values_lookup_mem (cfg : String) :
    (pan_values.lookup cfg).getD STEREO_TABLE ∈
      [STEREO_TABLE, SURROUND4_TABLE, SURROUND51_TABLE, SURROUND71_TABLE, MONO_TABLE] := by
  by_cases h1 : cfg = "STEREO"
  · subst h1; simp [pan_values, List.lookup]
  by_cases h2 : cfg = "SURROUND4"
  · subst h2; simp [pan_values, List.lookup]
  by_cases h3 : cfg = "SURROUND51"
  · subst h3; simp [pan_values, List.lookup]
  by_cases h4 : cfg = "SURROUND71"
  · subst h4; simp [pan_values, List.lookup]
  by_cases h5 : cfg = "MONO"
  · subst h5; simp [pan_values, List.lookup]
  have e1 : (cfg == "STEREO") = false := beq_eq_false_iff_ne.mpr h1
  have e2 : (cfg == "SURROUND4") = false := beq_eq_false_iff_ne.mpr h2
  have e3 : (cfg == "SURROUND51") = false := beq_eq_false_iff_ne.mpr h3
  have e4 : (cfg == "SURROUND71") = false := beq_eq_false_iff_ne.mpr h4
  have e5 : (cfg == "MONO") = false := beq_eq_false_iff_ne.mpr h5
  simp [pan_values, List.lookup, e1, e2, e3, e4, e5]

theorem table_bounds (t : List (String × ℚ))
    (ht : ∀ v ∈ t.map Prod.snd, -2 ≤ v ∧ v ≤ 2) (key : String) :
    -2 ≤ (t.lookup key).getD 0 ∧ (t.lookup key).getD 0 ≤ 2 := by
  rcases lookup_getD_zero_or_mem t key with h0 | hv
  · rw [h0]; norm_num
  · exact ht _ hv

theorem get_pan_value_bounds (key cfg : String) :
    -2 ≤ get_pan_value key cfg ∧ get_pan_value key cfg ≤ 2 := by
  have hmem := pan_values_lookup_mem cfg
  simp only [List.mem_cons, List.not_mem_nil, or_false] at hmem
  simp only [get_pan_value]
  rcases hmem with h|h|h|h|h <;> rw [h] <;>
    refine table_bounds _ (fun v hv => ?_) key <;>
    · simp only [STEREO_TABLE, SURROUND4_TABLE, SURROUND51_TABLE, SURROUND71_TABLE, MONO_TABLE,
        List.map_cons, List.map_nil, List.mem_cons, List.not_mem_nil, or_false] at hv
      rcases hv with rfl|rfl|rfl|rfl|rfl|rfl|rfl <;> norm_num

theorem get_pan_value_unrecognized (key cfg : String) (h : cfg ∉ RECOGNIZED_CONFIGS) :
    get_pan_value key cfg = get_pan_value key "STEREO" := by
  simp only [RECOGNIZED_CONFIGS, List.mem_cons, List.not_mem_nil, or_false, not_or] at h
  obtain ⟨h1, h2, h3, h4, h5⟩ := h
  have e1 : (cfg == "STEREO") = false := beq_eq_false_iff_ne.mpr h1
  have e2 : (cfg == "SURROUND4") = false := beq_eq_false_iff_ne.mpr h2
  have e3 : (cfg == "SURROUND51") = false := beq_eq_false_iff_ne.mpr h3
  have e4 : (cfg == "SURROUND71") = false := beq_eq_false_iff_ne.mpr h4
  have e5 : (cfg == "MONO") = false := beq_eq_false_iff_ne.mpr h5
  simp [get_pan_value, pan_values, List.lookup, e1, e2, e3, e4, e5]

theorem get_pan_value_missing_key (key cfg : String) (h : key ∉ PAN_KEYS) :
    get_pan_value key cfg = 0 := by
  simp only [PAN_KEYS, List.mem_cons, List.not_mem_nil, or_false, not_or] at h
  obtain ⟨k1, k2, k3, k4, k5, k6, k7⟩ := h
  have f1 : (key == "FRONTLEFT") = false := beq_eq_false_iff_ne.mpr k1
  have f2 : (key == "FRONTCENTER") = false := beq_eq_false_iff_ne.mpr k2
  have f3 : (key == "FRONTRIGHT") = false := beq_eq_false_iff_ne.mpr k3
  have f4 : (key == "SIDELEFT") = false := beq_eq_false_iff_ne.mpr k4
  have f5 : (key == "SIDERIGHT") = false := beq_eq_false_iff_ne.mpr k5
  have f6 : (key == "REARLEFT") = false := beq_eq_false_iff_ne.mpr k6
  have f7 : (key == "REARRIGHT") = false := beq_eq_false_iff_ne.mpr k7
  have hmem := pan_values_lookup_mem cfg
  simp only [List.mem_cons, List.not_mem_nil, or_false] at hmem
  simp only [get_pan_value]
  rcases hmem with h|h|h|h|h <;> rw [h] <;>
    simp only [STEREO_TABLE, SURROUND4_TABLE, SURROUND51_TABLE, SURROUND71_TABLE, MONO_TABLE,
      List.lookup, f1, f2, f3, f4, f5, f6, f7, Option.getD_none]

/-- C4: role resolution (the channel-name resolution of
`MultiAudioProperties.stream_selected`) is total: for every
(layout, channelCount) pair it returns exactly `channelCount` names; it
returns the registry entry verbatim when the layout is a key of
`CHANNEL_LAYOUT_MAP` with a role list of matching length, and the generic
sequentially numbered names `Ch1`..`ChN` in every other case. -/
theorem resolveRoles_total (layout : String) (n : Nat) :
    (resolveChannelNames layout n).length = n ∧
    (∀ l_info, CHANNEL_LAYOUT_MAP.lookup layout = some l_info →
      l_info.channels.length = n → resolveChannelNames layout n = l_info.channels) ∧
    ((CHANNEL_LAYOUT_MAP.lookup layout = none ∨
      ∃ l_info, CHANNEL_LAYOUT_MAP.lookup layout = some l_info ∧ l_info.channels.length ≠ n) →
      resolveChannelNames layout n = genericChannelNames n) := by
  refine ⟨resolveChannelNames_length layout n, ?_, ?_⟩
  · intro l_info hl hlen
    unfold resolveChannelNames
    rw [hl]
    dsimp only
    rw [if_pos hlen]
  · intro h
    unfold resolveChannelNames
    rcases h with h | ⟨l_info, hl, hne⟩
    · rw [h]
    · rw [hl]
      dsimp only
      rw [if_neg hne]

theorem resolveRoles_total_witness :
    resolveChannelNames "5.1" 6 = ["FL", "FR", "FC", "LFE", "SL", "SR"] ∧
    resolveChannelNames "bogus" 3 = ["Ch1", "Ch2", "Ch3"] ∧
    resolveChannelNames "stereo" 3 = ["Ch1", "Ch2", "Ch3"] := by
  refine ⟨?_, ?_, ?_⟩
  · rw [(resolveRoles_total "5.1" 6).2.1 ⟨"5.1(side)", ["FL", "FR", "FC", "LFE", "SL", "SR"]⟩
      (by decide) (by decide)]
  · rw [(resolveRoles_total "bogus" 3).2.2 (Or.inl (by decide))]
    decide
  · rw [(resolveRoles_total "stereo" 3).2.2
      (Or.inr ⟨⟨"stereo", ["FL", "FR"]⟩, by decide, by decide⟩)]
    decide

/-- C5: `get_pan_value` is total, pure and deterministic: every
(role, setting) pair yields a value in the pan range [-2, 2]; a scene
setting outside the five recognized configurations behaves exactly as
`STEREO`; a pan key absent from every table row yields the center value
0. -/
theorem resolvePan_total (key cfg : String) :
    (-2 ≤ get_pan_value key cfg ∧ get_pan_value key cfg ≤ 2) ∧
    (cfg ∉ RECOGNIZED_CONFIGS → get_pan_value key cfg = get_pan_value key "STEREO") ∧
    (key ∉ PAN_KEYS → get_pan_value key cfg = 0) :=
  ⟨get_pan_value_bounds key cfg, get_pan_value_unrecognized key cfg,
   get_pan_value_missing_key key cfg⟩

theorem resolvePan_total_witness :
    (-2 ≤ get_pan_value "REARLEFT" "SURROUND71" ∧ get_pan_value "REARLEFT" "SURROUND71" ≤ 2) ∧
    get_pan_value "SIDELEFT" "SOMETHINGELSE" = get_pan_value "SIDELEFT" "STEREO" ∧
    get_pan_value "UNKNOWNROLE" "SURROUND51" = 0 :=
  ⟨(resolvePan_total "REARLEFT" "SURROUND71").1,
   (resolvePan_total "SIDELEFT" "SOMETHINGELSE").2.1 (by decide),
   (resolvePan_total "UNKNOWNROLE" "SURROUND51").2.2 (by decide)⟩

/-- C8: `stream_selected` is idempotent and fully replacing: its result is
a pure function of the stream descriptor list and chosen index (the
previous channel list is discarded wholesale, so two calls with the same
index agree and a repeated call is idempotent), and every regenerated
entry defaults to `selected = true`. -/
theorem selectStream_idempotent_full_replace (o1 o2 : List AudioChannelItem) (i : Int)
    (ss : List AudioStreamItem) :
    stream_selected o1 i ss = stream_selected o2 i ss ∧
    stream_selected (stream_selected o1 i ss) i ss = stream_selected o1 i ss ∧
    ∀ c ∈ stream_selected o1 i ss, c.selected = true :=
  ⟨stream_selected_old_irrel o1 o2 i ss,
   stream_selected_old_irrel (stream_selected o1 i ss) o1 i ss,
   stream_selected_all_included o1 i ss⟩

theorem selectStream_idempotent_witness :
    stream_selected [⟨"STALE", 7, false⟩] 0 [⟨1, 0, "aac", 48000, 2, "stereo", "", ""⟩] =
      stream_selected [] 0 [⟨1, 0, "aac", 48000, 2, "stereo", "", ""⟩] ∧
    (⟨"FL", 0, true⟩ : AudioChannelItem).selected = true :=
  ⟨(selectStream_idempotent_full_replace [⟨"STALE", 7, false⟩] []
      0 [⟨1, 0, "aac", 48000, 2, "stereo", "", ""⟩]).1,
   (selectStream_idempotent_full_replace [⟨"STALE", 7, false⟩] []
      0 [⟨1, 0, "aac", 48000, 2, "stereo", "", ""⟩]).2.2 ⟨"FL", 0, true⟩ (by decide)⟩

/-- C9: the scan distinguishes absence from failure: a probe failure
(ffprobe missing, process error, or malformed JSON output) cancels the
scan with the catalog left empty, while a file with no audio streams
finishes successfully with an empty stream sequence. -/
theorem scan_probe_failure_vs_no_streams (s : CatalogState) (r : FfprobeResult) :
    ((r = .invokeError ∨ r = .malformedJson) →
      AUDIO_OT_ScanTracks_execute s true true r = (.cancelled, ⟨[], -1, []⟩)) ∧
    (AUDIO_OT_ScanTracks_execute s true false r = (.cancelled, ⟨[], -1, []⟩)) ∧
    (r = .emptyOutput →
      AUDIO_OT_ScanTracks_execute s true true r = (.finished, ⟨[], -1, []⟩)) := by
  refine ⟨?_, ?_, ?_⟩
  · rintro (rfl | rfl) <;> rfl
  · rfl
  · rintro rfl; rfl

theorem scan_probe_failure_witness :
    AUDIO_OT_ScanTracks_execute ⟨[], 0, []⟩ true true .invokeError =
      (.cancelled, ⟨[], -1, []⟩) ∧
    AUDIO_OT_ScanTracks_execute ⟨[], 0, []⟩ true true .emptyOutput =
      (.finished, ⟨[], -1, []⟩) :=
  ⟨(scan_probe_failure_vs_no_streams ⟨[], 0, []⟩ .invokeError).1 (Or.inl rfl),
   (scan_probe_failure_vs_no_streams ⟨[], 0, []⟩ .emptyOutput).2.2 rfl⟩

/-- C10: after a successful scan finding at least one audio stream the
catalog selects stream 0, which immediately populates the channel list for
that stream (one entry per reported channel, all included); a scan finding
no streams leaves index -1 and an empty channel list. -/
theorem scan_autoselects_first_stream (s : CatalogState) (data : List RawStream) :
    ((data.filter (fun d => d.index.isSome)) ≠ [] →
      (AUDIO_OT_ScanTracks_execute s true true (.parsed data)).1 = .finished ∧
      (AUDIO_OT_ScanTracks_execute s true true (.parsed data)).2.stream_index = 0 ∧
      (AUDIO_OT_ScanTracks_execute s true true (.parsed data)).2.channels.length =
        ((AUDIO_OT_ScanTracks_execute s true true (.parsed data)).2.streams.getD 0
          default).channels ∧
      ∀ c ∈ (AUDIO_OT_ScanTracks_execute s true true (.parsed data)).2.channels,
        c.selected = true) ∧
    ((data.filter (fun d => d.index.isSome)) = [] →
      AUDIO_OT_ScanTracks_execute s true true (.parsed data) = (.finished, ⟨[], -1, []⟩)) := by
  constructor
  · intro hne
    have hga : get_audio_streams_info true (.parsed data) =
        some (data.filter (fun d => d.index.isSome)).enum := rfl
    have henne : (data.filter (fun d => d.index.isSome)).enum ≠ [] := by
      apply List.ne_nil_of_length_pos
      rw [List.enum_length]
      exact List.length_pos.mpr hne
    have hlen : 0 < ((data.filter (fun d => d.index.isSome)).enum.map rawToItem).length := by
      rw [List.length_map, List.enum_length]
      exact List.length_pos.mpr hne
    unfold AUDIO_OT_ScanTracks_execute
    rw [hga]
    dsimp only
    rw [if_neg (show ¬(true = false) by decide), if_neg (show ¬(true = false) by decide)]
    rw [if_neg henne, if_pos hlen]
    simp only [setStreamIndex]
    refine ⟨trivial, trivial, ?_, ?_⟩
    · exact stream_selected_length _ 0 _ ⟨le_refl 0, by exact_mod_cast hlen⟩
    · exact stream_selected_all_included _ 0 _
  · intro hnil
    have hga : get_audio_streams_info true (.parsed data) =
        some (data.filter (fun d => d.index.isSome)).enum := rfl
    unfold AUDIO_OT_ScanTracks_execute
    rw [hga, hnil]
    rfl

theorem scan_autoselects_witness :
    (AUDIO_OT_ScanTracks_execute ⟨[], -1, []⟩ true true
      (.parsed [⟨some 1, some "aac", some 48000, some 2, some "stereo", none, none⟩])).2.stream_index
      = 0 ∧
    AUDIO_OT_ScanTracks_execute ⟨[], -1, []⟩ true true (.parsed [⟨none, none, none, none, none,
      none, none⟩]) = (.finished, ⟨[], -1, []⟩) :=
  ⟨((scan_autoselects_first_stream ⟨[], -1, []⟩
      [⟨some 1, some "aac", some 48000, some 2, some "stereo", none, none⟩]).1
      (by decide)).2.1,
   (scan_autoselects_first_stream ⟨[], -1, []⟩
      [⟨none, none, none, none, none, none, none⟩]).2 (by decide)⟩

/-- C6: Scenario A, on the code: for a stream reporting layout
`5.1(side)` with 6 channels under scene setting `SURROUND51`, the split
run places 6 strips and the strip for channel `SL` (role `SIDELEFT`,
position 4) receives pan exactly -1.2225, while the downmix import with
preset `FRONTCENTER` places one strip with pan exactly 0. -/
theorem scenarioA_pans :
    (AUDIO_OT_ImportMedia_execute
      (baseCfg stream51side (stream_selected [] 0 [stream51side]) false false)
      okWorld).audio_strips.length = 6 ∧
    ((AUDIO_OT_ImportMedia_execute
      (baseCfg stream51side (stream_selected [] 0 [stream51side]) false false)
      okWorld).audio_strips.getD 4 default).pan = -1.2225 ∧
    (AUDIO_OT_ImportMedia_execute
      (baseCfg stream51side (stream_selected [] 0 [stream51side]) true false)
      okWorld).audio_strips.length = 1 ∧
    ((AUDIO_OT_ImportMedia_execute
      (baseCfg stream51side (stream_selected [] 0 [stream51side]) true false)
      okWorld).audio_strips.getD 0 default).pan = 0 := by
  refine ⟨by decide, ?_, by decide, ?_⟩
  · show get_pan_value "SIDELEFT" "SURROUND51" = -1.2225
    simp [get_pan_value, pan_values, SURROUND51_TABLE, List.lookup]
  · show get_pan_value "FRONTCENTER" "SURROUND51" = 0
    simp [get_pan_value, pan_values, SURROUND51_TABLE, List.lookup]
    norm_num

/-- C1 counterexample: a split import of both channels of a stereo stream
with `pack_audio = True` (so neither temp file is marked for retention)
whose single ffmpeg run times out: the operator cancels, two temp files
were created, and none is deleted — unretained temp files survive the
operation, so cleanup does not run on this exit path. -/
theorem cleanup_skipped_on_timeout_counterexample :
    (AUDIO_OT_ImportMedia_execute
      (baseCfg streamStereo (stream_selected [] 0 [streamStereo]) false true)
      timeoutWorld).result = .cancelled ∧
    (AUDIO_OT_ImportMedia_execute
      (baseCfg streamStereo (stream_selected [] 0 [streamStereo]) false true)
      timeoutWorld).temp_created.length = 2 ∧
    (∀ t ∈ (AUDIO_OT_ImportMedia_execute
      (baseCfg streamStereo (stream_selected [] 0 [streamStereo]) false true)
      timeoutWorld).temp_created, t.pack = true) ∧
    (AUDIO_OT_ImportMedia_execute
      (baseCfg streamStereo (stream_selected [] 0 [streamStereo]) false true)
      timeoutWorld).temp_deleted = [] := by
  decide

/-- C2 counterexample: a split import of all 6 channels of a `5.1(side)`
stream whose extraction times out: all six planned outputs are handled by
one ffmpeg process, and its timeout cancels the whole operation with zero
strips placed — there is no per-job outcome and no partial success. -/
theorem batch_short_circuits_counterexample :
    ((baseCfg stream51side (stream_selected [] 0 [stream51side]) false false).channels.filter
      (fun c => c.selected)).length = 6 ∧
    (AUDIO_OT_ImportMedia_execute
      (baseCfg stream51side (stream_selected [] 0 [stream51side]) false false)
      timeoutWorld).temp_created.length = 6 ∧
    (AUDIO_OT_ImportMedia_execute
      (baseCfg stream51side (stream_selected [] 0 [stream51side]) false false)
      timeoutWorld).result = .cancelled ∧
    (AUDIO_OT_ImportMedia_execute
      (baseCfg stream51side (stream_selected [] 0 [stream51side]) false false)
      timeoutWorld).audio_strips = [] := by
  decide

/-- C3 counterexample: a stream whose layout identifier `stereo` is in the
registry but whose channel count 3 disagrees with the entry length 2:
split planning does not fall back to generic names — it cancels with the
layout-map-mismatch error, spawning no ffmpeg process and placing no
strip. -/
theorem known_layout_mismatch_counterexample :
    CHANNEL_LAYOUT_MAP.lookup streamMismatch.channel_layout =
      some ⟨"stereo", ["FL", "FR"]⟩ ∧
    (AUDIO_OT_ImportMedia_execute
      (baseCfg streamMismatch (stream_selected [] 0 [streamMismatch]) false false)
      okWorld).result = .cancelled ∧
    (AUDIO_OT_ImportMedia_execute
      (baseCfg streamMismatch (stream_selected [] 0 [streamMismatch]) false false)
      okWorld).error = some "Layout map mismatch." ∧
    Proc.ffmpegSplit ∉ (AUDIO_OT_ImportMedia_execute
      (baseCfg streamMismatch (stream_selected [] 0 [streamMismatch]) false false)
      okWorld).spawned ∧
    (AUDIO_OT_ImportMedia_execute
      (baseCfg streamMismatch (stream_selected [] 0 [streamMismatch]) false false)
      okWorld).audio_strips = [] := by
  decide

/-- C7 counterexample: a split import with zero channels selected on a
file that also has a video stream: the operator does fail with the
no-channels-selected error and runs no extraction, but only after the
video-presence probe was spawned and a video strip was placed — the
timeline is not unchanged and a process was spawned. -/
theorem no_channels_after_video_counterexample :
    (AUDIO_OT_ImportMedia_execute
      (baseCfg streamStereo [⟨"FL", 0, false⟩, ⟨"FR", 1, false⟩] false false)
      videoWorld).result = .cancelled ∧
    (AUDIO_OT_ImportMedia_execute
      (baseCfg streamStereo [⟨"FL", 0, false⟩, ⟨"FR", 1, false⟩] false false)
      videoWorld).error = some "No channels selected." ∧
    (AUDIO_OT_ImportMedia_execute
      (baseCfg streamStereo [⟨"FL", 0, false⟩, ⟨"FR", 1, false⟩] false false)
      videoWorld).video_placed = true ∧
    Proc.videoProbe ∈ (AUDIO_OT_ImportMedia_execute
      (baseCfg streamStereo [⟨"FL", 0, false⟩, ⟨"FR", 1, false⟩] false false)
      videoWorld).spawned := by
  decide

/-- C1 amended: cleanup runs only on the exit paths that reach the final
report stage: whenever the single extraction run succeeds, the operator
deletes exactly the temp files marked for packing (the unretained ones);
on the ffmpeg failure exits the operator returns before the cleanup
block (see the counterexample, where unretained temp files survive). -/
theorem cleanup_on_successful_extraction (cfg : ImportConfig) (w : ExternalWorld)
    (h : w.extract = ExtractOutcome.ok) :
    (AUDIO_OT_ImportMedia_execute cfg w).temp_deleted =
      ((AUDIO_OT_ImportMedia_execute cfg w).temp_created.filter (fun t => t.pack)).map
        (fun t => t.path) := by
  obtain ⟨vse, hv, va, ex, sa⟩ := w
  cases ex
  case timeout => exact absurd h (by simp)
  case procError => exact absurd h (by simp)
  case exn => exact absurd h (by simp)
  case ok =>
    show cleanupInvariant (AUDIO_OT_ImportMedia_execute cfg ⟨vse, hv, va, .ok, sa⟩)
    unfold AUDIO_OT_ImportMedia_execute
    dsimp only
    repeat' split
    all_goals simp [cleanupInvariant, mkCancel, mkFinish]

theorem cleanup_on_successful_extraction_witness :
    (AUDIO_OT_ImportMedia_execute
      (baseCfg streamStereo (stream_selected [] 0 [streamStereo]) false true)
      okWorld).temp_deleted =
      ((AUDIO_OT_ImportMedia_execute
        (baseCfg streamStereo (stream_selected [] 0 [streamStereo]) false true)
        okWorld).temp_created.filter (fun t => t.pack)).map (fun t => t.path) :=
  cleanup_on_successful_extraction
    (baseCfg streamStereo (stream_selected [] 0 [streamStereo]) false true) okWorld rfl

/-- C2 amended: all selected channels are extracted by one ffmpeg process,
so a timeout never yields a partial batch: zero audio strips are placed,
and if an extraction process was spawned at all the whole operation is
cancelled.  (Per-channel independence exists only at strip placement
after a successful extraction.) -/
theorem timeout_cancels_whole_batch (cfg : ImportConfig) (w : ExternalWorld)
    (h : w.extract = ExtractOutcome.timeout) :
    (AUDIO_OT_ImportMedia_execute cfg w).audio_strips = [] ∧
    ((Proc.ffmpegSplit ∈ (AUDIO_OT_ImportMedia_execute cfg w).spawned ∨
      Proc.ffmpegDownmix ∈ (AUDIO_OT_ImportMedia_execute cfg w).spawned) →
      (AUDIO_OT_ImportMedia_execute cfg w).result = OpResult.cancelled) := by
  obtain ⟨vse, hv, va, ex, sa⟩ := w
  cases ex
  case ok => exact absurd h (by simp)
  case procError => exact absurd h (by simp)
  case exn => exact absurd h (by simp)
  case timeout =>
    unfold AUDIO_OT_ImportMedia_execute
    dsimp only
    repeat' split
    all_goals refine ⟨rfl, ?_⟩
    all_goals try exact fun _ => rfl
    all_goals
      intro hmem
      exfalso
      rcases hmem with hmem | hmem <;>
        (simp only [mkFinish] at hmem; revert hmem;
         first
           | (split <;> simp)
           | simp)

theorem timeout_cancels_whole_batch_witness :
    (AUDIO_OT_ImportMedia_execute
      (baseCfg stream51side (stream_selected [] 0 [stream51side]) false false)
      timeoutWorld).audio_strips = [] ∧
    ((Proc.ffmpegSplit ∈ (AUDIO_OT_ImportMedia_execute
        (baseCfg stream51side (stream_selected [] 0 [stream51side]) false false)
        timeoutWorld).spawned ∨
      Proc.ffmpegDownmix ∈ (AUDIO_OT_ImportMedia_execute
        (baseCfg stream51side (stream_selected [] 0 [stream51side]) false false)
        timeoutWorld).spawned) →
      (AUDIO_OT_ImportMedia_execute
        (baseCfg stream51side (stream_selected [] 0 [stream51side]) false false)
        timeoutWorld).result = OpResult.cancelled) :=
  timeout_cancels_whole_batch
    (baseCfg stream51side (stream_selected [] 0 [stream51side]) false false) timeoutWorld rfl

/-- C3 amended: in split mode an unknown layout identifier does not make
planning fail: with at least one channel selected, planning falls back
(stereo roles for 2 channels, generic positional names otherwise) and the
extraction process is spawned.  When the identifier is known but its role
list length disagrees with the channel count, planning instead fails with
the layout-map-mismatch error (see the counterexample). -/
theorem split_unknown_layout_still_plans (cfg : ImportConfig) (w : ExternalWorld)
    (hmedia : cfg.media_is_file = true) (hff : cfg.ffmpeg_found = true)
    (hidx : 0 ≤ cfg.stream_index ∧ cfg.stream_index < (cfg.streams.length : Int))
    (hvse : w.vse_create_ok = true)
    (hmono : cfg.make_mono = false)
    (hch : 1 < (cfg.streams.getD cfg.stream_index.toNat default).channels)
    (hsel : cfg.channels.filter (fun c => c.selected) ≠ [])
    (hlay : CHANNEL_LAYOUT_MAP.lookup
      (cfg.streams.getD cfg.stream_index.toNat default).channel_layout = none) :
    Proc.ffmpegSplit ∈ (AUDIO_OT_ImportMedia_execute cfg w).spawned := by
  obtain ⟨l_info, hpl, hlen⟩ : ∃ l_info,
      planSplitLayout (cfg.streams.getD cfg.stream_index.toNat default).channel_layout
        (cfg.streams.getD cfg.stream_index.toNat default).channels = some l_info ∧
      l_info.channels.length =
        (cfg.streams.getD cfg.stream_index.toNat default).channels := by
    unfold planSplitLayout
    rw [hlay]
    dsimp only
    by_cases hc2 : (cfg.streams.getD cfg.stream_index.toNat default).channels = 2
    · rw [if_pos hc2]
      exact ⟨⟨"stereo", ["FL", "FR"]⟩, by decide, by rw [hc2]; rfl⟩
    · have h2 : 2 < (cfg.streams.getD cfg.stream_index.toNat default).channels := by omega
      rw [if_neg hc2, if_pos h2]
      exact ⟨_, rfl, genericChannelNames_length _⟩
  unfold AUDIO_OT_ImportMedia_execute
  simp only [hmedia, hff, hvse, hmono, hidx, hch, hsel, hpl, hlen, mkCancel, mkFinish]
  cases hex : w.extract <;>
    simp [hex, hmedia, hff, hvse, hidx, hsel, hpl, hlen, mkCancel, mkFinish]

theorem split_unknown_layout_witness :
    Proc.ffmpegSplit ∈ (AUDIO_OT_ImportMedia_execute
      (baseCfg streamUnknownLayout (stream_selected [] 0 [streamUnknownLayout]) false false)
      okWorld).spawned :=
  split_unknown_layout_still_plans
    (baseCfg streamUnknownLayout (stream_selected [] 0 [streamUnknownLayout]) false false)
    okWorld rfl rfl (by decide) rfl rfl (by decide) (by decide) (by decide)

/-- C7 amended: a split import with zero channels selected cancels with
the no-channels-selected error before any extraction: no temp file is
created or deleted, no ffmpeg process is spawned, and no audio strip is
placed.  The video-presence probe and optional video import, however,
have already run by then (see the counterexample). -/
theorem split_no_channels_cancels_before_extraction (cfg : ImportConfig) (w : ExternalWorld)
    (hmedia : cfg.media_is_file = true) (hff : cfg.ffmpeg_found = true)
    (hidx : 0 ≤ cfg.stream_index ∧ cfg.stream_index < (cfg.streams.length : Int))
    (hvse : w.vse_create_ok = true)
    (hmono : cfg.make_mono = false)
    (hch : 1 < (cfg.streams.getD cfg.stream_index.toNat default).channels)
    (hsel : cfg.channels.filter (fun c => c.selected) = []) :
    (AUDIO_OT_ImportMedia_execute cfg w).result = OpResult.cancelled ∧
    (AUDIO_OT_ImportMedia_execute cfg w).error = some "No channels selected." ∧
    (AUDIO_OT_ImportMedia_execute cfg w).temp_created = [] ∧
    (AUDIO_OT_ImportMedia_execute cfg w).temp_deleted = [] ∧
    Proc.ffmpegSplit ∉ (AUDIO_OT_ImportMedia_execute cfg w).spawned ∧
    Proc.ffmpegDownmix ∉ (AUDIO_OT_ImportMedia_execute cfg w).spawned ∧
    (AUDIO_OT_ImportMedia_execute cfg w).audio_strips = [] := by
  unfold AUDIO_OT_ImportMedia_execute
  simp only [hmedia, hff, hvse, hmono, hidx, hch, hsel, mkCancel]
  refine ⟨?_, ?_, ?_, ?_, ?_, ?_, ?_⟩ <;>
    simp [hmedia, hff, hvse, hidx, hsel, mkCancel] <;>
    (try split) <;> simp

theorem split_no_channels_witness :
    (AUDIO_OT_ImportMedia_execute
      (baseCfg streamStereo [⟨"FL", 0, false⟩, ⟨"FR", 1, false⟩] false false)
      videoWorld).result = OpResult.cancelled ∧
    (AUDIO_OT_ImportMedia_execute
      (baseCfg streamStereo [⟨"FL", 0, false⟩, ⟨"FR", 1, false⟩] false false)
      videoWorld).error = some "No channels selected." ∧
    (AUDIO_OT_ImportMedia_execute
      (baseCfg streamStereo [⟨"FL", 0, false⟩, ⟨"FR", 1, false⟩] false false)
      videoWorld).temp_created = [] ∧
    (AUDIO_OT_ImportMedia_execute
      (baseCfg streamStereo [⟨"FL", 0, false⟩, ⟨"FR", 1, false⟩] false false)
      videoWorld).temp_deleted = [] ∧
    Proc.ffmpegSplit ∉ (AUDIO_OT_ImportMedia_execute
      (baseCfg streamStereo [⟨"FL", 0, false⟩, ⟨"FR", 1, false⟩] false false)
      videoWorld).spawned ∧
    Proc.ffmpegDownmix ∉ (AUDIO_OT_ImportMedia_execute
      (baseCfg streamStereo [⟨"FL", 0, false⟩, ⟨"FR", 1, false⟩] false false)
      videoWorld).spawned ∧
    (AUDIO_OT_ImportMedia_execute
      (baseCfg streamStereo [⟨"FL", 0, false⟩, ⟨"FR", 1, false⟩] false false)
      videoWorld).audio_strips = [] :=
  split_no_channels_cancels_before_extraction
    (baseCfg streamStereo [⟨"FL", 0, false⟩, ⟨"FR", 1, false⟩] false false)
    videoWorld rfl rfl (by decide) rfl rfl (by decide) (by decide)
